import Mathlib

/-!
Verification of the cutting-list core of the inner-space backend:
`backend/services/manufacturing_rules.py` and
`backend/services/cutting_list_builder.py`, shallowly embedded.

Conventions of the embedding:
* Python `int` is `Int` (arbitrary precision, possibly negative).
* Python `float` values arising from exact small-integer arithmetic
  (areas in m², `round(x, 2)`) are `ℚ`.
* Python dicts with a fixed key set are structures; a key that may be
  absent is an `Option` field, and `dict.get(k, d)` is `Option.getD`.
* `int(x / n)` (float division then truncation toward zero) on exactly
  representable quotients is `Int.tdiv`.
* Fallible constructors (`Cabinet(**d)`, which can raise `TypeError` or
  `ValueError`) return `Except String _`.
-/

/-- The `ConstructionStyle` dataclass of `manufacturing_rules.py`:
construction style parameters, with the dataclass field defaults. -/
structure ConstructionStyle where
  material_thickness : Int := 18
  back_thickness : Int := 6
  cabinet_type : String := "base"
  toe_kick_height : Int := 150
  wardrobe_toe_kick : Int := 100
  door_gap : Int := 2
  back_construction_mode : String := "overlay"
  deriving Repr, DecidableEq

namespace CabinetTypeDetector

/-- Embeds `CabinetTypeDetector.detect_type`: classify a cabinet family
from its dimensions (the `width` argument is accepted but unused in the
source). -/
def detect_type (width height depth : Int) : String :=
  if height > 1500 then "tall"
  else if height ≤ 900 ∧ depth ≤ 400 then "wall"
  else if depth ≥ 560 ∧ height > 1500 then "wardrobe"
  else "base"

end CabinetTypeDetector

/-- One entry of a calculator result dict (the per-component sub-dicts
`gables` / `top_bottom` / `shelves` / `back` / `braces`): each carries a
`width`, exactly one of `height` / `depth`, a `thickness`, a `quantity`,
a `component_type`, and sometimes a `notes` string. -/
structure CompSpec where
  width : Int
  height : Option Int := none
  depth : Option Int := none
  thickness : Int
  quantity : Int
  component_type : String
  notes : Option String := none
  deriving Repr, DecidableEq

/-- The `overall` sub-dict of a calculator result. -/
structure CalcOverall where
  width : Int
  height : Int
  depth : Int
  internal_width : Int
  internal_depth : Int
  deriving Repr, DecidableEq

/-- Result dict of the four `ComponentCalculator.calculate_*` methods:
keys `type`, `overall`, `gables`, `top_bottom`, `shelves`, `back`,
`braces` (every method supplies all seven). -/
structure CalcResult where
  type : String
  overall : CalcOverall
  gables : CompSpec
  top_bottom : CompSpec
  shelves : CompSpec
  back : CompSpec
  braces : CompSpec
  deriving Repr, DecidableEq

namespace ComponentCalculator

/-- Embeds `ComponentCalculator.calculate_base_cabinet`: BASE cabinet
components. Fixed gable height 720, gable depth 560, panel depth 500,
brace height 100; internal width is `width - 2 * material_thickness`. -/
def calculate_base_cabinet (style : ConstructionStyle) (width : Int) : CalcResult :=
  let GABLE_HEIGHT : Int := 720
  let GABLE_DEPTH : Int := 560
  let PANEL_DEPTH : Int := 500
  let BRACE_HEIGHT : Int := 100
  let internal_width := width - style.material_thickness * 2
  { type := "base"
    overall := { width := width, height := GABLE_HEIGHT, depth := 600,
                 internal_width := internal_width, internal_depth := GABLE_DEPTH }
    gables := { width := GABLE_DEPTH, height := some GABLE_HEIGHT,
                thickness := style.material_thickness, quantity := 2,
                component_type := "GABLE" }
    top_bottom := { width := internal_width, depth := some PANEL_DEPTH,
                    thickness := style.material_thickness, quantity := 2,
                    component_type := "T/B" }
    shelves := { width := internal_width, depth := some PANEL_DEPTH,
                 thickness := style.material_thickness, quantity := 1,
                 component_type := "S/H" }
    back := { width := internal_width, height := some GABLE_HEIGHT,
              thickness := style.back_thickness, quantity := 1,
              component_type := "BACKS" }
    braces := { width := internal_width, height := some BRACE_HEIGHT,
                thickness := style.material_thickness, quantity := 1,
                component_type := "BRACES",
                notes := some "Top only - hollow basis" } }

/-- Embeds `ComponentCalculator.calculate_wall_cabinet`: WALL cabinet
components. Gable depth 300, panel depth 280, brace height 100; one
shelf up to height 700, two above; braces quantity 2. -/
def calculate_wall_cabinet (style : ConstructionStyle) (width height : Int) : CalcResult :=
  let GABLE_DEPTH : Int := 300
  let PANEL_DEPTH : Int := 280
  let BRACE_HEIGHT : Int := 100
  let internal_width := width - style.material_thickness * 2
  let shelf_count : Int := if height ≤ 700 then 1 else 2
  { type := "wall"
    overall := { width := width, height := height, depth := 320,
                 internal_width := internal_width, internal_depth := GABLE_DEPTH }
    gables := { width := GABLE_DEPTH, height := some height,
                thickness := style.material_thickness, quantity := 2,
                component_type := "GABLE" }
    top_bottom := { width := internal_width, depth := some PANEL_DEPTH,
                    thickness := style.material_thickness, quantity := 2,
                    component_type := "T/B" }
    shelves := { width := internal_width, depth := some PANEL_DEPTH,
                 thickness := style.material_thickness, quantity := shelf_count,
                 component_type := "S/H" }
    back := { width := internal_width, height := some height,
              thickness := style.back_thickness, quantity := 1,
              component_type := "BACKS" }
    braces := { width := internal_width, height := some BRACE_HEIGHT,
                thickness := style.material_thickness, quantity := 2,
                component_type := "BRACES",
                notes := some "Top and bottom for wall mounting" } }

/-- Embeds `ComponentCalculator.calculate_tall_cabinet`: TALL cabinet
components. Gable depth 560, panel depth 500; shelf count
`max(2, int((height - 200) / 400))`; braces quantity 2. -/
def calculate_tall_cabinet (style : ConstructionStyle) (width height : Int) : CalcResult :=
  let GABLE_DEPTH : Int := 560
  let PANEL_DEPTH : Int := 500
  let BRACE_HEIGHT : Int := 100
  let internal_width := width - style.material_thickness * 2
  let shelf_count : Int := max 2 (Int.tdiv (height - 200) 400)
  { type := "tall"
    overall := { width := width, height := height, depth := 600,
                 internal_width := internal_width, internal_depth := GABLE_DEPTH }
    gables := { width := GABLE_DEPTH, height := some height,
                thickness := style.material_thickness, quantity := 2,
                component_type := "GABLE" }
    top_bottom := { width := internal_width, depth := some PANEL_DEPTH,
                    thickness := style.material_thickness, quantity := 2,
                    component_type := "T/B" }
    shelves := { width := internal_width, depth := some PANEL_DEPTH,
                 thickness := style.material_thickness, quantity := shelf_count,
                 component_type := "S/H" }
    back := { width := internal_width, height := some height,
              thickness := style.back_thickness, quantity := 1,
              component_type := "BACKS" }
    braces := { width := internal_width, height := some BRACE_HEIGHT,
                thickness := style.material_thickness, quantity := 2,
                component_type := "BRACES",
                notes := some "Top and bottom" } }

/-- Embeds `ComponentCalculator.calculate_wardrobe`: WARDROBE
components. Top/bottom depth `depth - 30`, shelf depth `depth - 40`,
shelf count `max(2, int((height - 200) / 500))`; braces quantity 2. -/
def calculate_wardrobe (style : ConstructionStyle) (width height depth : Int) : CalcResult :=
  let internal_width := width - style.material_thickness * 2
  let tb_depth := depth - 30
  let shelf_depth := depth - 40
  let shelf_count : Int := max 2 (Int.tdiv (height - 200) 500)
  { type := "wardrobe"
    overall := { width := width, height := height, depth := depth + 40,
                 internal_width := internal_width, internal_depth := depth }
    gables := { width := depth, height := some height,
                thickness := style.material_thickness, quantity := 2,
                component_type := "GABLE" }
    top_bottom := { width := internal_width, depth := some tb_depth,
                    thickness := style.material_thickness, quantity := 2,
                    component_type := "T/B" }
    shelves := { width := internal_width, depth := some shelf_depth,
                 thickness := style.material_thickness, quantity := shelf_count,
                 component_type := "S/H" }
    back := { width := internal_width, height := some height,
              thickness := style.back_thickness, quantity := 1,
              component_type := "BACKS",
              notes := some "20mm from wall edge" }
    braces := { width := internal_width, height := some 100,
                thickness := style.material_thickness, quantity := 2,
                component_type := "BRACES" } }

/-- Argument dict of `ComponentCalculator.calculate_components`: keys
`width`, `height`, `depth`, `type`, the latter three read with
`dict.get` defaults (720 / 560 / `"base"`). `width` is read with a bare
`.get('width')`; every caller in the repository supplies it, so it is a
required field here. -/
structure CabinetData where
  width : Int
  height : Option Int := none
  depth : Option Int := none
  type : Option String := none
  deriving Repr, DecidableEq

/-- Embeds `ComponentCalculator.calculate_components`: dispatch on the
cabinet type (after resolving `auto` through the detector); any type
other than `wall` / `tall` / `wardrobe` falls through to the base
calculation. -/
def calculate_components (style : ConstructionStyle) (cabinet_data : CabinetData) : CalcResult :=
  let width := cabinet_data.width
  let height := cabinet_data.height.getD 720
  let depth := cabinet_data.depth.getD 560
  let cabinet_type :=
    if cabinet_data.type.getD "base" = "auto" then
      CabinetTypeDetector.detect_type width height depth
    else cabinet_data.type.getD "base"
  if cabinet_type = "wall" then calculate_wall_cabinet style width height
  else if cabinet_type = "tall" then calculate_tall_cabinet style width height
  else if cabinet_type = "wardrobe" then calculate_wardrobe style width height depth
  else calculate_base_cabinet style width

end ComponentCalculator

/-- The module-level `DEFAULT_STYLE` constant of
`manufacturing_rules.py`. -/
def DEFAULT_STYLE : ConstructionStyle :=
  { material_thickness := 18, back_thickness := 6, cabinet_type := "base",
    toe_kick_height := 150, back_construction_mode := "overlay" }

/-- The `Cabinet` dataclass of `cutting_list_builder.py` (after a
successful `__post_init__`). -/
structure Cabinet where
  cabinet_id : String
  width : Int
  height : Int
  depth : Int
  cabinet_type : String
  shelves : Int := 1
  drawers : Int := 0
  doors : Int := 1
  notes : String := ""
  deriving Repr, DecidableEq

/-- A raw cabinet record as passed to `build_cutting_list`: a Python
dict whose recognized keys may each be absent, plus a flag recording
whether the dict carries any key that is not a `Cabinet` dataclass
field (such a key makes `Cabinet(**d)` raise `TypeError`). -/
structure CabDict where
  cabinet_id? : Option String := none
  width? : Option Int := none
  height? : Option Int := none
  depth? : Option Int := none
  cabinet_type? : Option String := none
  shelves? : Option Int := none
  drawers? : Option Int := none
  doors? : Option Int := none
  notes? : Option String := none
  extra_keys : Bool := false
  deriving Repr, DecidableEq

/-- Embeds `Cabinet(**cab_dict)`: keyword construction of the dataclass
followed by `__post_init__`. An unexpected key or a missing required key
raises `TypeError`; `__post_init__` raises `ValueError` naming the
cabinet when a dimension is zero or negative. -/
def mkCabinet (d : CabDict) : Except String Cabinet :=
  if d.extra_keys then
    Except.error "TypeError: unexpected keyword argument"
  else
    match d.cabinet_id?, d.width?, d.height?, d.depth?, d.cabinet_type? with
    | some cid, some w, some h, some dep, some ct =>
      if w ≤ 0 ∨ h ≤ 0 ∨ dep ≤ 0 then
        Except.error ("Invalid dimensions for " ++ cid)
      else
        Except.ok { cabinet_id := cid, width := w, height := h, depth := dep,
                    cabinet_type := ct, shelves := d.shelves?.getD 1,
                    drawers := d.drawers?.getD 0, doors := d.doors?.getD 1,
                    notes := d.notes?.getD "" }
    | _, _, _, _, _ => Except.error "TypeError: missing required argument"

/-- Whether constructing the `Cabinet` raised. -/
def isCabError (r : Except String Cabinet) : Bool :=
  match r with
  | Except.error _ => true
  | Except.ok _ => false

/-- A flattened cutting-list line item: one of the component dicts built
by `_convert_calc_result_to_components` or `_calculate_filler_panel`.
Keys that only some records carry are `Option` fields (`none` = key
absent from that dict). -/
structure Component where
  component_type : String
  part_name : String
  cabinet_id : String
  overall_unit_width : Option Int := none
  component_width : Option Int := none
  width : Int
  height : Int
  depth : Option Int := none
  quantity : Int
  material_thickness : Option Int := none
  edge_banding_notes : Option String := none
  area_m2 : Option ℚ := none
  notes : Option String := none
  thickness : Option Int := none
  edge_banding : Option String := none
  formula : Option String := none
  deriving Repr, DecidableEq

namespace CuttingListBuilder

/-- The `gables` branch of `_convert_calc_result_to_components`. -/
def convert_gables (cd : CompSpec) (cabinet : Cabinet) : Component :=
  { component_type := "GABLE"
    part_name := "Gable (" ++ cabinet.cabinet_id ++ ")"
    cabinet_id := cabinet.cabinet_id
    overall_unit_width := some cd.width
    component_width := some cd.width
    width := cd.width
    height := cd.height.getD 0
    depth := none
    quantity := cd.quantity
    material_thickness := some cd.thickness
    edge_banding_notes := some "Front edge"
    area_m2 := some (((cd.width * cd.height.getD 0 * cd.quantity : Int) : ℚ) / 1000000) }

/-- The `top_bottom` branch of `_convert_calc_result_to_components`:
always two records, "Top Panel" then "Bottom Panel", each quantity 1. -/
def convert_top_bottom (cd : CompSpec) (cabinet : Cabinet) : List Component :=
  [ { component_type := "T/B"
      part_name := "Top Panel (" ++ cabinet.cabinet_id ++ ")"
      cabinet_id := cabinet.cabinet_id
      overall_unit_width := some cd.width
      component_width := some cd.width
      width := cd.width
      height := cd.depth.getD 0
      depth := some (cd.depth.getD 0)
      quantity := 1
      material_thickness := some cd.thickness
      edge_banding_notes := some "Front edge"
      area_m2 := some (((cd.width * cd.depth.getD 0 : Int) : ℚ) / 1000000) },
    { component_type := "T/B"
      part_name := "Bottom Panel (" ++ cabinet.cabinet_id ++ ")"
      cabinet_id := cabinet.cabinet_id
      overall_unit_width := some cd.width
      component_width := some cd.width
      width := cd.width
      height := cd.depth.getD 0
      depth := some (cd.depth.getD 0)
      quantity := 1
      material_thickness := some cd.thickness
      edge_banding_notes := some "Front edge"
      area_m2 := some (((cd.width * cd.depth.getD 0 : Int) : ℚ) / 1000000) } ]

/-- The `shelves` branch of `_convert_calc_result_to_components`: one
numbered record per `range(quantity)` iteration, each quantity 1 (a
non-positive quantity yields an empty range, hence no records). -/
def convert_shelves (cd : CompSpec) (cabinet : Cabinet) : List Component :=
  (List.range cd.quantity.toNat).map (fun i =>
    { component_type := "S/H"
      part_name := "Shelf " ++ toString (i + 1) ++ " (" ++ cabinet.cabinet_id ++ ")"
      cabinet_id := cabinet.cabinet_id
      overall_unit_width := some cd.width
      component_width := some cd.width
      width := cd.width
      height := cd.depth.getD 0
      depth := some (cd.depth.getD 0)
      quantity := 1
      material_thickness := some cd.thickness
      edge_banding_notes := some "Front edge"
      area_m2 := some (((cd.width * cd.depth.getD 0 : Int) : ℚ) / 1000000) })

/-- The `back` branch of `_convert_calc_result_to_components`. -/
def convert_back (cd : CompSpec) (cabinet : Cabinet) : Component :=
  { component_type := "BACKS"
    part_name := "Back Panel (" ++ cabinet.cabinet_id ++ ")"
    cabinet_id := cabinet.cabinet_id
    overall_unit_width := some cd.width
    component_width := some cd.width
    width := cd.width
    height := cd.height.getD 0
    depth := none
    quantity := cd.quantity
    material_thickness := some cd.thickness
    edge_banding_notes := some "None"
    area_m2 := some (((cd.width * cd.height.getD 0 * cd.quantity : Int) : ℚ) / 1000000) }

/-- The `braces` branch of `_convert_calc_result_to_components`. -/
def convert_braces (cd : CompSpec) (cabinet : Cabinet) : Component :=
  { component_type := "BRACES"
    part_name := "Rail (" ++ cabinet.cabinet_id ++ ")"
    cabinet_id := cabinet.cabinet_id
    overall_unit_width := some cd.width
    component_width := some cd.width
    width := cd.width
    height := cd.height.getD 0
    depth := none
    quantity := cd.quantity
    material_thickness := some cd.thickness
    edge_banding_notes := some "None"
    area_m2 := some (((cd.width * cd.height.getD 0 * cd.quantity : Int) : ℚ) / 1000000)
    notes := some (cd.notes.getD "") }

/-- Embeds `CuttingListBuilder._convert_calc_result_to_components`:
flatten a calculator result into line items, iterating the component
names in the fixed order gables, top_bottom, shelves, back, braces
(every calculator result carries all five keys, so no name is skipped;
every field access in the loop body is a `dict.get` with a default, so
the `except` clauses of the source are unreachable). -/
def _convert_calc_result_to_components (calc_result : CalcResult) (cabinet : Cabinet) : List Component :=
  [convert_gables calc_result.gables cabinet]
    ++ convert_top_bottom calc_result.top_bottom cabinet
    ++ convert_shelves calc_result.shelves cabinet
    ++ [convert_back calc_result.back cabinet]
    ++ [convert_braces calc_result.braces cabinet]

/-- Embeds `CuttingListBuilder._calculate_filler_panel`: the single
FILLER strip for a narrow filler (note its dict has `thickness` /
`edge_banding` / `formula` keys and no `material_thickness` / `area_m2`
keys). -/
def _calculate_filler_panel (style : ConstructionStyle) (cabinet : Cabinet) : List Component :=
  [ { component_type := "FILLER"
      part_name := "Filler Panel (" ++ cabinet.cabinet_id ++ ")"
      cabinet_id := cabinet.cabinet_id
      width := cabinet.depth
      height := cabinet.height
      depth := none
      quantity := 1
      thickness := some style.material_thickness
      edge_banding := some "All visible edges"
      formula := some (toString cabinet.height ++ " × " ++ toString cabinet.depth) } ]

/-- Embeds `CuttingListBuilder._calculate_cabinet_components`: fillers
narrower than 200mm take the filler shortcut; everything else goes
through `ComponentCalculator.calculate_components` and is flattened. -/
def _calculate_cabinet_components (style : ConstructionStyle) (cabinet : Cabinet) : List Component :=
  if cabinet.cabinet_type = "filler" ∧ cabinet.width < 200 then
    _calculate_filler_panel style cabinet
  else
    _convert_calc_result_to_components
      (ComponentCalculator.calculate_components style
        { width := cabinet.width, height := some cabinet.height,
          depth := some cabinet.depth, type := some cabinet.cabinet_type })
      cabinet

/-- The summary dict of `_calculate_summary`. `component_breakdown`
models the Python dict (initialised-to-0, then `+=`) as a total
function with default 0. -/
structure Summary where
  total_cabinets : Nat
  total_components : Nat
  total_pieces : Int
  total_area_m2 : ℚ
  component_breakdown : String → Int

/-- Python `round(x, 2)`. Python rounds ties to even; `round` here
rounds ties up. No value in this development lands on a tie, so the two
agree everywhere they are used. -/
def round2 (x : ℚ) : ℚ := ((round (x * 100) : ℤ) : ℚ) / 100

/-- Embeds `CuttingListBuilder._calculate_summary`. The area loop
mirrors Python truthiness: a dimension contributes only when present
and nonzero (`if w and h: ... elif w and d: ...`). -/
def _calculate_summary (components : List Component) (num_cabinets : Nat) : Summary :=
  let total_pieces := (components.map (fun c => c.quantity)).sum
  let total_area := components.foldl (fun acc comp =>
    if comp.width ≠ 0 ∧ comp.height ≠ 0 then
      acc + ((comp.width * comp.height * comp.quantity : Int) : ℚ) / 1000000
    else if comp.width ≠ 0 ∧ comp.depth.getD 0 ≠ 0 then
      acc + ((comp.width * comp.depth.getD 0 * comp.quantity : Int) : ℚ) / 1000000
    else acc) 0
  let type_counts : String → Int := components.foldl
    (fun acc comp => fun t =>
      if t = comp.component_type then acc t + comp.quantity else acc t)
    (fun _ => 0)
  { total_cabinets := num_cabinets
    total_components := components.length
    total_pieces := total_pieces
    total_area_m2 := round2 total_area
    component_breakdown := type_counts }

/-- The dict returned by `build_cutting_list` (the pandas `dataframe`
entry, a pure projection of `components` for export, is outside the
embedding). -/
structure BuildResult where
  components : List Component
  summary : Summary
  construction_style : ConstructionStyle

/-- Embeds `CuttingListBuilder._empty_result`. -/
def _empty_result (style : ConstructionStyle) : BuildResult :=
  { components := []
    summary := { total_cabinets := 0, total_components := 0, total_pieces := 0,
                 total_area_m2 := 0, component_breakdown := fun _ => 0 }
    construction_style := style }

/-- One iteration of the per-cabinet loop of `build_cutting_list`: the
`try` block constructs the `Cabinet` and computes its components; any
exception is caught, logged and the cabinet skipped (contributing no
components). Component calculation itself is total (see
`_convert_calc_result_to_components`), so the only exceptions arise
from `Cabinet(**cab_dict)`. -/
def process_cabinet (style : ConstructionStyle) (cab_dict : CabDict) : List Component :=
  match mkCabinet cab_dict with
  | Except.error _ => []
  | Except.ok cabinet => _calculate_cabinet_components style cabinet

/-- Embeds `CuttingListBuilder.build_cutting_list`: the main entry
point. -/
def build_cutting_list (style : ConstructionStyle) (cabinets : List CabDict) : BuildResult :=
  if cabinets.isEmpty then _empty_result style
  else
    let all_components := cabinets.flatMap (process_cabinet style)
    if all_components.isEmpty then _empty_result style
    else
      { components := all_components
        summary := _calculate_summary all_components cabinets.length
        construction_style := style }

/-- A base-cabinet input record of width 900 with caller-chosen height
and depth (the base formula is expected to ignore both). -/
def baseDict (h d : Int) : CabDict :=
  { cabinet_id? := some "B1", width? := some 900, height? := some h,
    depth? := some d, cabinet_type? := some "base" }

/-- The flattened cutting list the base-900 scenario produces. -/
def base900Components : List Component :=
  [ { component_type := "GABLE", part_name := "Gable (B1)", cabinet_id := "B1",
      overall_unit_width := some 560, component_width := some 560, width := 560,
      height := 720, depth := none, quantity := 2, material_thickness := some 18,
      edge_banding_notes := some "Front edge", area_m2 := some (8064/10000 : ℚ) },
    { component_type := "T/B", part_name := "Top Panel (B1)", cabinet_id := "B1",
      overall_unit_width := some 864, component_width := some 864, width := 864,
      height := 500, depth := some 500, quantity := 1, material_thickness := some 18,
      edge_banding_notes := some "Front edge", area_m2 := some (432/1000 : ℚ) },
    { component_type := "T/B", part_name := "Bottom Panel (B1)", cabinet_id := "B1",
      overall_unit_width := some 864, component_width := some 864, width := 864,
      height := 500, depth := some 500, quantity := 1, material_thickness := some 18,
      edge_banding_notes := some "Front edge", area_m2 := some (432/1000 : ℚ) },
    { component_type := "S/H", part_name := "Shelf 1 (B1)", cabinet_id := "B1",
      overall_unit_width := some 864, component_width := some 864, width := 864,
      height := 500, depth := some 500, quantity := 1, material_thickness := some 18,
      edge_banding_notes := some "Front edge", area_m2 := some (432/1000 : ℚ) },
    { component_type := "BACKS", part_name := "Back Panel (B1)", cabinet_id := "B1",
      overall_unit_width := some 864, component_width := some 864, width := 864,
      height := 720, depth := none, quantity := 1, material_thickness := some 6,
      edge_banding_notes := some "None", area_m2 := some (62208/100000 : ℚ) },
    { component_type := "BRACES", part_name := "Rail (B1)", cabinet_id := "B1",
      overall_unit_width := some 864, component_width := some 864, width := 864,
      height := 100, depth := none, quantity := 1, material_thickness := some 18,
      edge_banding_notes := some "None", area_m2 := some (864/10000 : ℚ),
      notes := some "Top only - hollow basis" } ]

/-- The gable line item of the base-900 scenario (head of
`base900Components`). -/
def gableB900 : Component :=
  { component_type := "GABLE", part_name := "Gable (B1)", cabinet_id := "B1",
    overall_unit_width := some 560, component_width := some 560, width := 560,
    height := 720, depth := none, quantity := 2, material_thickness := some 18,
    edge_banding_notes := some "Front edge", area_m2 := some (8064/10000 : ℚ) }

/-- A positive-width base cabinet narrower than twice the default
material thickness (30 < 36): internal width comes out at -6. -/
def narrowDict : CabDict :=
  { cabinet_id? := some "N1", width? := some 30, height? := some 720,
    depth? := some 560, cabinet_type? := some "base" }

/-- A valid wall-cabinet record (used as the well-formed neighbour in
the batch-tolerance scenarios). -/
def goodDict : CabDict :=
  { cabinet_id? := some "W1", width? := some 600, height? := some 720,
    depth? := some 320, cabinet_type? := some "wall" }

/-- The `Cabinet` that `goodDict` constructs. -/
def wallCab : Cabinet :=
  { cabinet_id := "W1", width := 600, height := 720, depth := 320,
    cabinet_type := "wall" }

/-- The `Cabinet` that `baseDict 720 560` constructs. -/
def baseCab900 : Cabinet :=
  { cabinet_id := "B1", width := 900, height := 720, depth := 560,
    cabinet_type := "base" }

/-- A record with `width = 0` (fails `__post_init__` validation). -/
def width0Dict : CabDict :=
  { cabinet_id? := some "X1", width? := some 0, height? := some 720,
    depth? := some 560, cabinet_type? := some "base" }

/-- A record missing the required `height` key (makes `Cabinet(**d)`
raise `TypeError`). -/
def noHeightDict : CabDict :=
  { cabinet_id? := some "M1", width? := some 600,
    depth? := some 560, cabinet_type? := some "base" }

/-- A record carrying an unexpected extra key (makes `Cabinet(**d)`
raise `TypeError`). -/
def extraKeyDict : CabDict :=
  { cabinet_id? := some "E1", width? := some 600, height? := some 720,
    depth? := some 560, cabinet_type? := some "base", extra_keys := true }

/-- A filler-typed cabinet at width 250 (≥ the 200mm shortcut
threshold). -/
def wideFiller : Cabinet :=
  { cabinet_id := "F1", width := 250, height := 720, depth := 560,
    cabinet_type := "filler" }

end CuttingListBuilder

open CuttingListBuilder

/-- Unfolding of one loop iteration when the `Cabinet` constructs. -/
lemma process_cabinet_ok (style : ConstructionStyle) {d : CabDict} {cab : Cabinet}
    (hmk : mkCabinet d = Except.ok cab) :
    process_cabinet style d = _calculate_cabinet_components style cab := by
  simp [process_cabinet, hmk]

/-- Unfolding of one loop iteration when `Cabinet(**d)` raises: the
cabinet is skipped. -/
lemma process_cabinet_error (style : ConstructionStyle) {d : CabDict} {e : String}
    (hmk : mkCabinet d = Except.error e) :
    process_cabinet style d = [] := by
  simp [process_cabinet, hmk]

/-- Every component of a build result comes from the flattened
per-cabinet loop. -/
lemma mem_build_components (style : ConstructionStyle) (cabinets : List CabDict)
    (comp : Component)
    (hmem : comp ∈ (build_cutting_list style cabinets).components) :
    comp ∈ cabinets.flatMap (process_cabinet style) := by
  unfold build_cutting_list at hmem
  by_cases h1 : cabinets.isEmpty
  · simp [h1, _empty_result] at hmem
  · simp only [h1] at hmem
    by_cases h2 : (cabinets.flatMap (process_cabinet style)).isEmpty
    · simp [h2, _empty_result] at hmem
    · simpa [h2] using hmem

/-- Every record produced by the flattening step stores the unrounded
area width × (depth, or height when no depth) × quantity / 1,000,000. -/
lemma convert_area_ok (cr : CalcResult) (cab : Cabinet) (comp : Component)
    (hmem : comp ∈ _convert_calc_result_to_components cr cab) (a : ℚ)
    (ha : comp.area_m2 = some a) :
    a = ((comp.width * comp.depth.getD comp.height * comp.quantity : Int) : ℚ) / 1000000 := by
  simp [_convert_calc_result_to_components, convert_gables, convert_top_bottom,
        convert_shelves, convert_back, convert_braces] at hmem
  rcases hmem with h | h | h | ⟨i, hi, h⟩ | h | h <;> subst h <;> simp_all

/-- The component-breakdown fold computes, for each type, the summed
quantity of the components of that type. -/
lemma breakdown_foldl (comps : List Component) (acc : String → Int) (t : String) :
    (comps.foldl
        (fun a comp => fun s => if s = comp.component_type then a s + comp.quantity else a s)
        acc) t =
      acc t + (((comps.filter (fun c => c.component_type == t)).map (fun c => c.quantity)).sum) := by
  induction comps generalizing acc with
  | nil => simp
  | cons c cs ih =>
    simp only [List.foldl_cons, List.filter_cons]
    rw [ih]
    rcases eq_or_ne c.component_type t with h | h
    · simp [h]
      omega
    · simp [h, Ne.symm h]

/-- A record whose `width` key is 0 always makes `Cabinet(**d)` raise
(either `TypeError` on missing/extra keys or `ValueError` in
`__post_init__`). -/
lemma mkCabinet_width0 (d : CabDict) (h : d.width? = some 0) :
    isCabError (mkCabinet d) = true := by
  by_cases he : d.extra_keys
  · simp [mkCabinet, he, isCabError]
  · cases hcid : d.cabinet_id? <;> cases hh : d.height? <;> cases hdep : d.depth? <;>
      cases hct : d.cabinet_type? <;>
      simp [mkCabinet, he, h, hcid, hh, hdep, hct, isCabError]

/-- Per-cabinet component calculation always yields at least one record
(a FILLER strip, or a list headed by the gable record). -/
lemma calculate_cabinet_components_ne_nil (style : ConstructionStyle) (cab : Cabinet) :
    _calculate_cabinet_components style cab ≠ [] := by
  unfold _calculate_cabinet_components
  split
  · simp [_calculate_filler_panel]
  · simp [_convert_calc_result_to_components]

/-- The base-900 batch produces exactly `base900Components`, for any
positive caller-supplied height and depth. -/
lemma build_base900_components (h d : Int) (hh : ¬ h ≤ 0) (hd : ¬ d ≤ 0) :
    (build_cutting_list DEFAULT_STYLE [baseDict h d]).components = base900Components := by
  simp [build_cutting_list, process_cabinet, mkCabinet, baseDict,
        _calculate_cabinet_components, _convert_calc_result_to_components,
        convert_gables, convert_top_bottom, convert_shelves, convert_back,
        convert_braces, ComponentCalculator.calculate_components,
        ComponentCalculator.calculate_base_cabinet, DEFAULT_STYLE, hh, hd,
        List.range_succ, List.range_zero, base900Components]
  norm_num
  rfl

/-- The base-900 batch counts 7 physical pieces. -/
lemma build_base900_pieces (h d : Int) (hh : ¬ h ≤ 0) (hd : ¬ d ≤ 0) :
    (build_cutting_list DEFAULT_STYLE [baseDict h d]).summary.total_pieces = 7 := by
  simp [build_cutting_list, process_cabinet, mkCabinet, baseDict,
        _calculate_cabinet_components, _convert_calc_result_to_components,
        convert_gables, convert_top_bottom, convert_shelves, convert_back,
        convert_braces, ComponentCalculator.calculate_components,
        ComponentCalculator.calculate_base_cabinet, DEFAULT_STYLE, hh, hd,
        List.range_succ, List.range_zero, _calculate_summary]

/-- C1 (evaluation of the code at the failing input): a base cabinet of
positive width 30 — narrower than twice the default 18mm material
thickness, so its internal width 30 - 36 = -6 is negative — is not
rejected by any validation: the build emits its full breakdown, whose
Top/Bottom, Shelf, Back and Brace records all carry width -6, contrary
to the claim that the calculation fails with a validation error and
never emits a component of non-positive width. -/
theorem C1_narrow_cabinet_emits_negative_width :
    ((build_cutting_list DEFAULT_STYLE [narrowDict]).components.map
        (fun c => (c.component_type, c.width))) =
      [("GABLE", 560), ("T/B", -6), ("T/B", -6), ("S/H", -6), ("BACKS", -6), ("BRACES", -6)] := by
  decide

/-- C2 (amended): every component record emitted by `build_cutting_list`
that carries an `area_m2` field stores exactly
width × height_or_depth × quantity / 1,000,000 — the depth for
horizontal panels, the height otherwise — with NO rounding to two
decimals (the source stores the raw quotient; `round(x, 2)` is applied
only to the summary total, not per record). -/
theorem C2_area_formula_unrounded (style : ConstructionStyle)
    (cabinets : List CabDict) (comp : Component)
    (hmem : comp ∈ (build_cutting_list style cabinets).components)
    (a : ℚ) (ha : comp.area_m2 = some a) :
    a = ((comp.width * comp.depth.getD comp.height * comp.quantity : Int) : ℚ) / 1000000 := by
  have h2 := mem_build_components style cabinets comp hmem
  rw [List.mem_flatMap] at h2
  obtain ⟨d, hd, hcomp⟩ := h2
  cases hmk : mkCabinet d with
  | error e => rw [process_cabinet_error style hmk] at hcomp; simp at hcomp
  | ok cab =>
    rw [process_cabinet_ok style hmk] at hcomp
    unfold _calculate_cabinet_components at hcomp
    by_cases hf : cab.cabinet_type = "filler" ∧ cab.width < 200
    · rw [if_pos hf] at hcomp
      simp [_calculate_filler_panel] at hcomp
      subst hcomp
      simp at ha
    · rw [if_neg hf] at hcomp
      exact convert_area_ok _ _ _ hcomp a ha

/-- Counterexample to C2 as stated: the gable record of the base-900
build stores area 0.8064 m², while round(560 × 720 × 2 / 1,000,000, 2)
is 0.81 — recomputing the claimed rounded expression does not reproduce
the stored value. -/
theorem C2_round_counterexample :
    ((build_cutting_list DEFAULT_STYLE [baseDict 720 560]).components.get? 0).map
        (fun c => c.area_m2) = some (some (8064/10000 : ℚ)) ∧
    round2 (((560 * 720 * 2 : Int) : ℚ) / 1000000) = 81/100 ∧
    (8064/10000 : ℚ) ≠ 81/100 := by
  refine ⟨?_, ?_, by norm_num⟩
  · rw [build_base900_components 720 560 (by decide) (by decide)]
    rfl
  · norm_num [round2, round_eq]

/-- Witness for C2 at the gable record of the base-900 build. -/
theorem C2_area_formula_unrounded_witness :
    gableB900 ∈ (build_cutting_list DEFAULT_STYLE [baseDict 720 560]).components ∧
    gableB900.area_m2 = some (8064/10000 : ℚ) ∧
    (8064/10000 : ℚ) =
      ((gableB900.width * gableB900.depth.getD gableB900.height * gableB900.quantity : Int) : ℚ)
        / 1000000 := by
  have hmem : gableB900 ∈ (build_cutting_list DEFAULT_STYLE [baseDict 720 560]).components := by
    rw [build_base900_components 720 560 (by decide) (by decide)]
    simp [base900Components, gableB900]
  exact ⟨hmem, rfl,
    C2_area_formula_unrounded DEFAULT_STYLE [baseDict 720 560] gableB900 hmem _ rfl⟩

/-- C3: a base cabinet of width 900 under the default style yields
exactly the flattened list `base900Components` — one GABLE 560×720
quantity 2, a Top Panel and a Bottom Panel 864×500 quantity 1 each, one
Shelf 864×500 quantity 1, one BACKS 864×720 quantity 1 of thickness 6,
one BRACES 864×100 quantity 1 — with total_pieces 7, for every positive
caller-supplied height and depth (both are ignored in favour of the
fixed 720/560 standard). -/
theorem C3_base900_flattened_list (h d : Int) (hh : 0 < h) (hd : 0 < d) :
    (build_cutting_list DEFAULT_STYLE [baseDict h d]).components = base900Components ∧
    (build_cutting_list DEFAULT_STYLE [baseDict h d]).summary.total_pieces = 7 :=
  ⟨build_base900_components h d (by omega) (by omega),
   build_base900_pieces h d (by omega) (by omega)⟩

/-- Witness for C3 at height 720 and depth 560. -/
theorem C3_base900_flattened_list_witness :
    ((0 : Int) < 720 ∧ (0 : Int) < 560) ∧
    ((build_cutting_list DEFAULT_STYLE [baseDict 720 560]).components = base900Components ∧
     (build_cutting_list DEFAULT_STYLE [baseDict 720 560]).summary.total_pieces = 7) :=
  ⟨by decide, C3_base900_flattened_list 720 560 (by decide) (by decide)⟩

/-- C4: for every width, height and depth, auto-detection classifies by
the stated priority order with first match winning — height > 1500
gives tall, otherwise height ≤ 900 and depth ≤ 400 gives wall,
otherwise depth ≥ 560 and height > 1500 gives wardrobe, otherwise base
— and the wardrobe branch is unreachable: no input ever yields
"wardrobe". -/
theorem C4_detect_type_priority_order (w h d : Int) :
    CabinetTypeDetector.detect_type w h d =
      (if h > 1500 then "tall"
       else if h ≤ 900 ∧ d ≤ 400 then "wall"
       else if d ≥ 560 ∧ h > 1500 then "wardrobe"
       else "base") ∧
    CabinetTypeDetector.detect_type w h d ≠ "wardrobe" := by
  refine ⟨rfl, ?_⟩
  unfold CabinetTypeDetector.detect_type
  split_ifs with h1 h2 h3
  · decide
  · decide
  · exact absurd h3.2 h1
  · decide

/-- C5: for a wardrobe of width 1000, height 2200, depth 560 under the
default style, the breakdown has internal width 964, gables 560 wide ×
2200 high quantity 2, top/bottom depth 530 (depth - 30), shelf depth
520 (depth - 40) with shelf count max(2, ⌊(2200-200)/500⌋) = 4, one
back of back_thickness, and braces of quantity 2. -/
theorem C5_wardrobe_1000_2200_560 :
    (ComponentCalculator.calculate_wardrobe DEFAULT_STYLE 1000 2200 560).overall.internal_width = 964 ∧
    (ComponentCalculator.calculate_wardrobe DEFAULT_STYLE 1000 2200 560).gables.width = 560 ∧
    (ComponentCalculator.calculate_wardrobe DEFAULT_STYLE 1000 2200 560).gables.height = some 2200 ∧
    (ComponentCalculator.calculate_wardrobe DEFAULT_STYLE 1000 2200 560).gables.quantity = 2 ∧
    (ComponentCalculator.calculate_wardrobe DEFAULT_STYLE 1000 2200 560).top_bottom.depth = some (560 - 30) ∧
    (ComponentCalculator.calculate_wardrobe DEFAULT_STYLE 1000 2200 560).shelves.depth = some (560 - 40) ∧
    (ComponentCalculator.calculate_wardrobe DEFAULT_STYLE 1000 2200 560).shelves.quantity =
      max 2 (Int.tdiv (2200 - 200) 500) ∧
    (ComponentCalculator.calculate_wardrobe DEFAULT_STYLE 1000 2200 560).shelves.quantity = 4 ∧
    (ComponentCalculator.calculate_wardrobe DEFAULT_STYLE 1000 2200 560).back.quantity = 1 ∧
    (ComponentCalculator.calculate_wardrobe DEFAULT_STYLE 1000 2200 560).back.thickness =
      DEFAULT_STYLE.back_thickness ∧
    (ComponentCalculator.calculate_wardrobe DEFAULT_STYLE 1000 2200 560).braces.quantity = 2 := by
  decide

/-- C6: a cabinet record whose type string is none of wall, tall,
wardrobe or auto is dispatched, without error, to the base-cabinet
calculation (the base fallback of the type dispatch). -/
theorem C6_unknown_type_normalizes_to_base (style : ConstructionStyle)
    (w h d : Int) (ty : String)
    (h1 : ty ≠ "wall") (h2 : ty ≠ "tall") (h3 : ty ≠ "wardrobe") (h4 : ty ≠ "auto") :
    ComponentCalculator.calculate_components style
        { width := w, height := some h, depth := some d, type := some ty } =
      ComponentCalculator.calculate_base_cabinet style w := by
  unfold ComponentCalculator.calculate_components
  simp [h1, h2, h3, h4]

/-- Witness for C6 at the unrecognized type "corner". -/
theorem C6_unknown_type_normalizes_to_base_witness :
    (("corner" : String) ≠ "wall" ∧ ("corner" : String) ≠ "tall" ∧
     ("corner" : String) ≠ "wardrobe" ∧ ("corner" : String) ≠ "auto") ∧
    ComponentCalculator.calculate_components DEFAULT_STYLE
        { width := 600, height := some 720, depth := some 560, type := some "corner" } =
      ComponentCalculator.calculate_base_cabinet DEFAULT_STYLE 600 :=
  ⟨by decide,
   C6_unknown_type_normalizes_to_base DEFAULT_STYLE 600 720 560 "corner"
     (by decide) (by decide) (by decide) (by decide)⟩

/-- C7: for every build result, summary.total_pieces is the sum of the
quantity fields over all component records, and for each
component_type, summary.component_breakdown at that type is the summed
quantity of exactly the components of that type. -/
theorem C7_summary_consistency (style : ConstructionStyle) (cabinets : List CabDict) :
    (build_cutting_list style cabinets).summary.total_pieces =
      (((build_cutting_list style cabinets).components).map (fun c => c.quantity)).sum ∧
    ∀ t : String,
      (build_cutting_list style cabinets).summary.component_breakdown t =
        ((((build_cutting_list style cabinets).components).filter
            (fun c => c.component_type == t)).map (fun c => c.quantity)).sum := by
  unfold build_cutting_list
  by_cases h1 : cabinets.isEmpty
  · simp [h1, _empty_result]
  · by_cases h2 : (cabinets.flatMap (process_cabinet style)).isEmpty
    · simp [h1, h2, _empty_result]
    · simp only [h1, h2, Bool.false_eq_true, if_false]
      constructor
      · rfl
      · intro t
        simp only [_calculate_summary]
        rw [breakdown_foldl]
        simp

/-- Witness for C7 at the base-900 batch and the GABLE type. -/
theorem C7_summary_consistency_witness :
    (build_cutting_list DEFAULT_STYLE [baseDict 720 560]).summary.total_pieces =
      (((build_cutting_list DEFAULT_STYLE [baseDict 720 560]).components).map
          (fun c => c.quantity)).sum ∧
    (build_cutting_list DEFAULT_STYLE [baseDict 720 560]).summary.component_breakdown "GABLE" =
      ((((build_cutting_list DEFAULT_STYLE [baseDict 720 560]).components).filter
          (fun c => c.component_type == "GABLE")).map (fun c => c.quantity)).sum :=
  ⟨(C7_summary_consistency DEFAULT_STYLE [baseDict 720 560]).1,
   (C7_summary_consistency DEFAULT_STYLE [baseDict 720 560]).2 "GABLE"⟩

/-- C8: a batch of three records of which exactly one has width 0 — in
any of the three positions — and the other two construct valid cabinets
does not abort: its components are exactly the two valid cabinets'
components in batch order, with the invalid record skipped (the
embedding is total, so nothing propagates). -/
theorem C8_partial_failure_tolerance (style : ConstructionStyle)
    (bad good1 good2 : CabDict) (cab1 cab2 : Cabinet)
    (hbad : bad.width? = some 0)
    (h1 : mkCabinet good1 = Except.ok cab1)
    (h2 : mkCabinet good2 = Except.ok cab2) :
    (build_cutting_list style [bad, good1, good2]).components =
      _calculate_cabinet_components style cab1 ++ _calculate_cabinet_components style cab2 ∧
    (build_cutting_list style [good1, bad, good2]).components =
      _calculate_cabinet_components style cab1 ++ _calculate_cabinet_components style cab2 ∧
    (build_cutting_list style [good1, good2, bad]).components =
      _calculate_cabinet_components style cab1 ++ _calculate_cabinet_components style cab2 := by
  have hpbad : process_cabinet style bad = [] := by
    have herr := mkCabinet_width0 bad hbad
    cases hmk : mkCabinet bad with
    | error e => exact process_cabinet_error style hmk
    | ok cab => rw [hmk] at herr; simp [isCabError] at herr
  have hne2 : _calculate_cabinet_components style cab1 ++
      _calculate_cabinet_components style cab2 ≠ [] := by
    simp [calculate_cabinet_components_ne_nil style cab1]
  refine ⟨?_, ?_, ?_⟩
  · have hflat : ([bad, good1, good2] : List CabDict).flatMap (process_cabinet style) =
        _calculate_cabinet_components style cab1 ++ _calculate_cabinet_components style cab2 := by
      simp [process_cabinet_ok style h1, hpbad, process_cabinet_ok style h2]
    simp [build_cutting_list, hflat, hne2]
  · have hflat : ([good1, bad, good2] : List CabDict).flatMap (process_cabinet style) =
        _calculate_cabinet_components style cab1 ++ _calculate_cabinet_components style cab2 := by
      simp [process_cabinet_ok style h1, hpbad, process_cabinet_ok style h2]
    simp [build_cutting_list, hflat, hne2]
  · have hflat : ([good1, good2, bad] : List CabDict).flatMap (process_cabinet style) =
        _calculate_cabinet_components style cab1 ++ _calculate_cabinet_components style cab2 := by
      simp [process_cabinet_ok style h1, hpbad, process_cabinet_ok style h2]
    simp [build_cutting_list, hflat, hne2]

/-- Witness for C8: a width-0 record alongside a valid wall cabinet and
a valid base cabinet, with the bad record exercised in every position. -/
theorem C8_partial_failure_tolerance_witness :
    (width0Dict.width? = some 0 ∧ mkCabinet goodDict = Except.ok wallCab ∧
     mkCabinet (baseDict 720 560) = Except.ok baseCab900) ∧
    ((build_cutting_list DEFAULT_STYLE [width0Dict, goodDict, baseDict 720 560]).components =
      _calculate_cabinet_components DEFAULT_STYLE wallCab ++
        _calculate_cabinet_components DEFAULT_STYLE baseCab900 ∧
     (build_cutting_list DEFAULT_STYLE [goodDict, width0Dict, baseDict 720 560]).components =
      _calculate_cabinet_components DEFAULT_STYLE wallCab ++
        _calculate_cabinet_components DEFAULT_STYLE baseCab900 ∧
     (build_cutting_list DEFAULT_STYLE [goodDict, baseDict 720 560, width0Dict]).components =
      _calculate_cabinet_components DEFAULT_STYLE wallCab ++
        _calculate_cabinet_components DEFAULT_STYLE baseCab900) :=
  ⟨⟨rfl, rfl, rfl⟩,
   C8_partial_failure_tolerance DEFAULT_STYLE width0Dict goodDict (baseDict 720 560)
     wallCab baseCab900 rfl rfl rfl⟩

/-- C9 (implicit): the per-cabinet loop skips a record on any
construction exception, not only dimension validation — a record
missing the required height key raises, a record with an unexpected
extra key raises, and any record whose construction raises is skipped
while the rest of the batch is still processed, the call never
propagating the exception (the components are those of the batch
without the bad record). -/
theorem C9_any_exception_skips (style : ConstructionStyle) :
    (∀ c : CabDict, c.height? = none → isCabError (mkCabinet c) = true) ∧
    (∀ c : CabDict, c.extra_keys = true → isCabError (mkCabinet c) = true) ∧
    (∀ (pre post : List CabDict) (c : CabDict), isCabError (mkCabinet c) = true →
      (build_cutting_list style (pre ++ c :: post)).components =
        (build_cutting_list style (pre ++ post)).components) := by
  refine ⟨?_, ?_, ?_⟩
  · intro c hc
    by_cases he : c.extra_keys
    · simp [mkCabinet, he, isCabError]
    · cases hcid : c.cabinet_id? <;> cases hw : c.width? <;> cases hdep : c.depth? <;>
        cases hct : c.cabinet_type? <;>
        simp [mkCabinet, he, hc, hcid, hw, hdep, hct, isCabError]
  · intro c he
    simp [mkCabinet, he, isCabError]
  · intro pre post c hc
    have hskip : process_cabinet style c = [] := by
      cases hmk : mkCabinet c with
      | error e => exact process_cabinet_error style hmk
      | ok cab => rw [hmk] at hc; simp [isCabError] at hc
    have hflat : (pre ++ c :: post).flatMap (process_cabinet style) =
        (pre ++ post).flatMap (process_cabinet style) := by
      simp [hskip]
    by_cases hpp : (pre ++ post).isEmpty
    · have hnil : pre ++ post = [] := by simpa using hpp
      have hpre : pre = [] := by
        cases pre with
        | nil => rfl
        | cons x xs => simp at hnil
      have hpost : post = [] := by
        rw [hpre] at hnil
        simpa using hnil
      subst hpre hpost
      simp [build_cutting_list, hskip, _empty_result]
    · have hne : (pre ++ c :: post).isEmpty = false := by
        cases pre <;> simp
      simp only [build_cutting_list, hne, Bool.false_eq_true, if_false, hflat]
      have hppf : (pre ++ post).isEmpty = false := by
        cases hx : (pre ++ post).isEmpty
        · rfl
        · exact absurd hx hpp
      simp only [hppf, Bool.false_eq_true, if_false]
      by_cases hin : ((pre ++ post).flatMap (process_cabinet style)).isEmpty = true
      · rw [if_pos hin, if_pos hin]
      · rw [if_neg hin, if_neg hin]

/-- Witness for C9: a record missing height, a record with an extra
key, and a two-record batch whose bad record is skipped. -/
theorem C9_any_exception_skips_witness :
    isCabError (mkCabinet noHeightDict) = true ∧
    isCabError (mkCabinet extraKeyDict) = true ∧
    (build_cutting_list DEFAULT_STYLE [goodDict, noHeightDict]).components =
      (build_cutting_list DEFAULT_STYLE [goodDict]).components :=
  ⟨(C9_any_exception_skips DEFAULT_STYLE).1 noHeightDict rfl,
   (C9_any_exception_skips DEFAULT_STYLE).2.1 extraKeyDict rfl,
   (C9_any_exception_skips DEFAULT_STYLE).2.2 [goodDict] [] noHeightDict
     ((C9_any_exception_skips DEFAULT_STYLE).1 noHeightDict rfl)⟩

/-- C10 (implicit): the filler shortcut fires only for
`cabinet_type = "filler"` with width < 200; a filler-typed cabinet of
width ≥ 200 is routed through `calculate_components`, lands in the base
fallback, and yields the full base breakdown (gable, top, bottom,
shelf, back, brace) with no FILLER record. -/
theorem C10_wide_filler_gets_base_breakdown (style : ConstructionStyle)
    (cabinet : Cabinet) (hty : cabinet.cabinet_type = "filler")
    (hw : 200 ≤ cabinet.width) :
    _calculate_cabinet_components style cabinet =
      _convert_calc_result_to_components
        (ComponentCalculator.calculate_base_cabinet style cabinet.width) cabinet ∧
    (_calculate_cabinet_components style cabinet).map (fun c => c.component_type) =
      ["GABLE", "T/B", "T/B", "S/H", "BACKS", "BRACES"] := by
  have hnl : ¬ cabinet.width < 200 := by omega
  have hroute : _calculate_cabinet_components style cabinet =
      _convert_calc_result_to_components
        (ComponentCalculator.calculate_base_cabinet style cabinet.width) cabinet := by
    unfold _calculate_cabinet_components
    simp [hty, hnl, ComponentCalculator.calculate_components]
  refine ⟨hroute, ?_⟩
  rw [hroute]
  simp [_convert_calc_result_to_components, convert_gables, convert_top_bottom,
        convert_shelves, convert_back, convert_braces,
        ComponentCalculator.calculate_base_cabinet,
        List.range_succ, List.range_zero]

/-- Witness for C10: a filler-typed cabinet of width 250. -/
theorem C10_wide_filler_gets_base_breakdown_witness :
    (wideFiller.cabinet_type = "filler" ∧ (200 : Int) ≤ wideFiller.width) ∧
    (_calculate_cabinet_components DEFAULT_STYLE wideFiller =
      _convert_calc_result_to_components
        (ComponentCalculator.calculate_base_cabinet DEFAULT_STYLE wideFiller.width) wideFiller ∧
    (_calculate_cabinet_components DEFAULT_STYLE wideFiller).map (fun c => c.component_type) =
      ["GABLE", "T/B", "T/B", "S/H", "BACKS", "BRACES"]) :=
  ⟨⟨rfl, by decide⟩,
   C10_wide_filler_gets_base_breakdown DEFAULT_STYLE wideFiller rfl (by decide)⟩
